import Mathlib

/-!
Verification of the binelek-mcp-server gateway client and tool adapters.

The TypeScript source is shallowly embedded:
* JSON values are the inductive `Json`; `JSON.stringify(v)` is `stringify`,
  `JSON.stringify(v, null, 2)` is `stringify2`.
* The axios instance created in `BinelekGatewayClient`'s constructor is
  modelled by its observable configuration (`mkClient`): default header map,
  base URL, timeout, and the `validateStatus` policy.
* One HTTP exchange is a value of `HttpOutcome` (a response arrived, the
  request was sent but nothing came back, or the request could not be sent);
  the axios promise layer is `axiosExchange`, whose rejection value models the
  AxiosError shape (`response?`, `request?`, `message`) consumed by
  `handleError`.
* Thrown failures are `Except.error`; the fact that a Lean function is total
  models the TypeScript guarantee that the corresponding code never lets an
  exception escape.
-/

namespace BinelekMCP

/-- JSON values, as produced by the gateway and consumed by the tools.
Numbers are modelled as integers (the only numbers the embedded code builds
are status codes and result limits). -/
inductive Json where
  | null
  | bool (b : Bool)
  | num (n : Int)
  | str (s : String)
  | arr (elems : List Json)
  | obj (fields : List (String × Json))

/-- Escaping of one character inside a JSON string literal, as done by
`JSON.stringify` (quote, backslash and the common control characters). -/
def escapeChar (c : Char) : String :=
  if c = '"' then "\\\""
  else if c = '\\' then "\\\\"
  else if c = '\n' then "\\n"
  else if c = '\t' then "\\t"
  else if c = '\r' then "\\r"
  else String.singleton c

/-- Escaping of a whole string for inclusion in a JSON document. -/
def escapeJson (s : String) : String :=
  String.join (s.toList.map escapeChar)

mutual

/-- Compact serialization: models `JSON.stringify(v)` (no indent argument),
as used by `handleError` for the response body. -/
def stringify : Json → String
  | .null => "null"
  | .bool b => cond b "true" "false"
  | .num n => toString n
  | .str s => "\"" ++ escapeJson s ++ "\""
  | .arr xs => "[" ++ stringifyArr xs ++ "]"
  | .obj fs => "\x7b" ++ stringifyObj fs ++ "\x7d"

/-- Comma-separated serialization of array elements. -/
def stringifyArr : List Json → String
  | [] => ""
  | [x] => stringify x
  | x :: y :: xs => stringify x ++ "," ++ stringifyArr (y :: xs)

/-- Comma-separated serialization of object fields. -/
def stringifyObj : List (String × Json) → String
  | [] => ""
  | [(k, v)] => "\"" ++ escapeJson k ++ "\":" ++ stringify v
  | (k, v) :: g :: fs =>
      "\"" ++ escapeJson k ++ "\":" ++ stringify v ++ "," ++ stringifyObj (g :: fs)

end

/-- Indentation of `2 * d` spaces for pretty serialization at depth `d`. -/
def indentStr (d : Nat) : String :=
  String.mk (List.replicate (2 * d) ' ')

mutual

/-- Pretty serialization at depth `d`: models `JSON.stringify(v, null, 2)`,
the formatter every tool adapter uses for its text blocks. -/
def stringifyAt (d : Nat) : Json → String
  | .null => "null"
  | .bool b => cond b "true" "false"
  | .num n => toString n
  | .str s => "\"" ++ escapeJson s ++ "\""
  | .arr [] => "[]"
  | .arr (x :: xs) =>
      "[\n" ++ stringifyArrAt (d + 1) (x :: xs) ++ "\n" ++ indentStr d ++ "]"
  | .obj [] => "\x7b\x7d"
  | .obj (f :: fs) =>
      "\x7b\n" ++ stringifyObjAt (d + 1) (f :: fs) ++ "\n" ++ indentStr d ++ "\x7d"

/-- Pretty serialization of array elements, one per indented line. -/
def stringifyArrAt (d : Nat) : List Json → String
  | [] => ""
  | [x] => indentStr d ++ stringifyAt d x
  | x :: y :: ys =>
      indentStr d ++ stringifyAt d x ++ ",\n" ++ stringifyArrAt d (y :: ys)

/-- Pretty serialization of object fields, one per indented line. -/
def stringifyObjAt (d : Nat) : List (String × Json) → String
  | [] => ""
  | [(k, v)] => indentStr d ++ "\"" ++ escapeJson k ++ "\": " ++ stringifyAt d v
  | (k, v) :: g :: gs =>
      indentStr d ++ "\"" ++ escapeJson k ++ "\": " ++ stringifyAt d v ++ ",\n"
        ++ stringifyObjAt d (g :: gs)

end

/-- The pretty printer at top level: `JSON.stringify(v, null, 2)`. -/
def stringify2 (v : Json) : String := stringifyAt 0 v

/-- JavaScript truthiness of a JSON value (`null`, `false`, `0` and `""` are
falsy; arrays and objects are truthy). -/
def jsonTruthy : Json → Bool
  | .null => false
  | .bool b => b
  | .num n => n ≠ 0
  | .str s => s ≠ ""
  | .arr _ => true
  | .obj _ => true

/-- Non-throwing property access `v.k`: a lookup on objects, `undefined`
(here `none`) on other non-null receivers.  On a `null` receiver JavaScript
property access throws instead; that case is `jsPropOrThrow`, and this
function is only used where a previous successful access guarantees the
receiver is not `null`. -/
def jsProp (v : Json) (k : String) : Option Json :=
  match v with
  | .obj fs => fs.lookup k
  | _ => none

/-- The TypeError raised by JavaScript property access on a `null` receiver,
with the V8 message naming the accessed property. -/
def typeErrorMsg (k : String) : String :=
  "Cannot read properties of null (reading \x27" ++ k ++ "\x27)"

/-- Property access `v.k` as the expression evaluates: it throws a TypeError
on a `null` receiver and otherwise yields the (possibly `undefined`) value. -/
def jsPropOrThrow (v : Json) (k : String) : Except String (Option Json) :=
  match v with
  | .null => .error (typeErrorMsg k)
  | v => .ok (jsProp v k)

/-- Truthiness of a possibly-`undefined` JavaScript value: `undefined` is
falsy, otherwise the value's own truthiness decides. -/
def jsOptTruthy : Option Json → Bool
  | none => false
  | some v => jsonTruthy v

/-- The JavaScript `x || dflt` idiom on a possibly-`undefined` JSON value. -/
def jsOr (v : Option Json) (dflt : Json) : Json :=
  match v with
  | some j => if jsonTruthy j then j else dflt
  | none => dflt

/-- A field that is dropped from the serialized body when the value is
`undefined` (as `JSON.stringify` does for `undefined`-valued fields). -/
def optField (k : String) (v : Option Json) : List (String × Json) :=
  match v with
  | some j => [(k, j)]
  | none => []

/-- The JavaScript object-literal spread `\x7b ...base, ...upds \x7d`: keys of
`base` keep their position but later spreads overwrite their values, and keys
only in `upds` are appended. -/
def spreadMerge (base upds : List (String × Json)) : List (String × Json) :=
  (base.map fun kv =>
    match upds.lookup kv.1 with
    | some v => (kv.1, v)
    | none => kv)
  ++ upds.filter fun kv => (base.lookup kv.1).isNone

/-! ## Gateway client construction

The `GatewayConfig` interface declares `baseUrl` and `tenantId` as required
fields, but that requirement lives only in the static TypeScript type: the
constructor body stores the config without any runtime check, and at the
JavaScript runtime any field can be `undefined`.  To let that distinction be
stated, every field is modelled as an `Option`. -/

/-- Runtime view of the `GatewayConfig` interface. -/
structure GatewayConfig where
  baseUrl : Option String
  token : Option String
  tenantId : Option String
  timeout : Option Nat

/-- Default header map built by the constructor: `X-Tenant-Id` and
`Content-Type` always (the tenant value may be `undefined`), `Authorization`
only when `config.token` is truthy (so an empty-string token, being falsy,
adds no header).  A `none` value models a key bound to `undefined`. -/
def defaultHeaders (c : GatewayConfig) : List (String × Option String) :=
  [("X-Tenant-Id", c.tenantId), ("Content-Type", some "application/json")]
    ++ (match c.token with
        | some t => if t = "" then [] else [("Authorization", some ("Bearer " ++ t))]
        | none => [])

/-- Observable state of a constructed client: the stored tenant id and the
axios instance configuration (base URL, default headers, timeout). -/
structure BinelekGatewayClient where
  tenantId : Option String
  baseURL : Option String
  headers : List (String × Option String)
  timeout : Nat

/-- The `BinelekGatewayClient` constructor.  It is a total function: the
constructor body performs no validation, so construction succeeds for every
config.  `config.timeout || 30000` makes a zero (falsy) timeout fall back to
the default as well. -/
def mkClient (c : GatewayConfig) : BinelekGatewayClient :=
  { tenantId := c.tenantId
    baseURL := c.baseUrl
    headers := defaultHeaders c
    timeout :=
      match c.timeout with
      | some t => if t = 0 then 30000 else t
      | none => 30000 }

/-- Lookup of a default header on a constructed client.  `none` means the
header key is entirely absent; `some none` would mean present with an
`undefined` value.  Instance default headers are attached by axios to every
outbound request, so this map is what every request carries. -/
def hdr (cl : BinelekGatewayClient) (k : String) : Option (Option String) :=
  cl.headers.lookup k

/-! ## HTTP exchange and error normalization -/

/-- An HTTP response: status code and parsed JSON body. -/
structure HttpResponse where
  status : Nat
  data : Json

/-- Outcome of attempting one HTTP exchange. -/
inductive HttpOutcome where
  | response (r : HttpResponse)
  | noResponse
  | sendFailure (msg : String)

/-- The `validateStatus` policy installed by the constructor:
`(status) => status < 500`, so 4xx responses resolve instead of rejecting. -/
def validateStatus (status : Nat) : Bool :=
  status < 500

/-- Shape of a JavaScript error as inspected by `handleError`: an optional
`response`, a `request` marker, and a `message`.  An AxiosError for a bad
status carries the response; one for a sent-but-unanswered request carries
only the request; a plain `Error` carries neither. -/
structure JsError where
  response : Option HttpResponse
  request : Bool
  message : String

/-- The axios promise for one exchange under `validateStatus`: a response
whose status passes the predicate resolves; a failing status rejects with an
AxiosError holding that response; no response rejects with a request-only
error; a send failure rejects with a plain message. -/
def axiosExchange (o : HttpOutcome) : Except JsError HttpResponse :=
  match o with
  | .response r =>
      if validateStatus r.status then .ok r
      else .error { response := some r, request := true
                    message := "Request failed with status code " ++ toString r.status }
  | .noResponse =>
      .error { response := none, request := true, message := "No response" }
  | .sendFailure m =>
      .error { response := none, request := false, message := m }

/-- The three failure kinds a gateway operation can surface, each rendered to
the human-readable message `handleError` throws (`new Error(message)`). -/
inductive ClientError where
  | upstream (status : Nat) (body : Json)
  | unreachable
  | request (msg : String)

/-- The message carried by each failure kind, exactly as `handleError`
formats it. -/
def ClientError.message : ClientError → String
  | .upstream s d => "API Error (" ++ toString s ++ "): " ++ stringify d
  | .unreachable => "No response from API Gateway. Is it running?"
  | .request m => "Request failed: " ++ m

/-- `handleError`: classify a caught error by the fields it carries and throw
a fresh `Error` with a normalized message, never re-throwing the caught value
itself. -/
def handleError (e : JsError) : ClientError :=
  match e.response with
  | some r => .upstream r.status r.data
  | none => if e.request then .unreachable else .request e.message

/-- The uniform body of every gateway method except `getEntity`: await the
exchange inside `try`, return `response.data`, and route any caught error
through `handleError`. -/
def runOp (o : HttpOutcome) : Except ClientError Json :=
  match axiosExchange o with
  | .ok r => .ok r.data
  | .error e => .error (handleError e)

/-- `getEntity`: like `runOp` but with the explicit 404 check.  The
`throw new Error(...)` sits inside the method's own `try`, so the surrounding
`catch` feeds it to `handleError`; a plain `Error` has neither `response` nor
`request`, landing in the `Request failed:` branch. -/
def getEntity (entityId : String) (o : HttpOutcome) : Except ClientError Json :=
  match axiosExchange o with
  | .ok r =>
      if r.status = 404 then
        .error (handleError
          { response := none, request := false
            message := "Entity not found: " ++ entityId })
      else .ok r.data
  | .error e => .error (handleError e)

/-! ## The gateway operations and their request bodies -/

/-- One constructor per public method of `BinelekGatewayClient`. -/
inductive GatewayOp where
  | healthCheck
  | getEntityOp
  | queryEntities
  | createEntity
  | updateEntity
  | deleteEntity
  | getRelationships
  | createRelationship
  | semanticSearch
  | keywordSearch
  | hybridSearch
  | predict
  | chat
  | analyzeEntity
  | listPipelines
  | getPipeline
  | triggerPipeline
  | getPipelineRuns
  | listDomains
  | getDomainConfig
  | getOntologySchema
  | validateYaml
  | generateCode
deriving DecidableEq

/-- Parameters any one operation may consume; each operation reads only its
own fields.  Defaults let concrete instances be written succinctly. -/
structure OpArgs where
  entityId : String := ""
  entityType : String := ""
  attributes : Json := .obj []
  cypherQuery : String := ""
  parameters : Option Json := none
  sourceId : String := ""
  targetId : String := ""
  relationshipType : String := ""
  properties : Option Json := none
  query : String := ""
  entityTypes : Option Json := none
  limit : Int := 10
  filters : Option Json := none
  options : List (String × Json) := []
  modelType : String := ""
  input : Json := .obj []
  message : String := ""
  context : Option Json := none
  analysisType : String := ""
  pipelineId : String := ""
  domainName : String := ""
  yamlContent : String := ""
  targetLanguage : String := ""

/-- The JSON body each operation sends, as a function of the client's stored
tenant id and the call parameters; `none` for the GET/DELETE operations that
send no body.  A `tenantId` bound to `undefined` would be dropped by
`JSON.stringify`, hence the `match` in `createEntity`; the same applies to
the optional `entityTypes`/`filters` fields of the search bodies.
`hybridSearch` spreads its options object over `\x7b query \x7d`, and the
`x || dflt` defaults of `queryEntities`, `createRelationship`, `chat` and
`triggerPipeline` are `jsOr`. -/
def requestBody (op : GatewayOp) (tenantId : Option String) (a : OpArgs) : Option Json :=
  match op with
  | .healthCheck => none
  | .getEntityOp => none
  | .queryEntities =>
      some (.obj [("query", .str a.cypherQuery), ("parameters", jsOr a.parameters (.obj []))])
  | .createEntity =>
      some (.obj ([("type", .str a.entityType), ("attributes", a.attributes)]
        ++ (match tenantId with
            | some t => [("tenantId", .str t)]
            | none => [])))
  | .updateEntity => some (.obj [("attributes", a.attributes)])
  | .deleteEntity => none
  | .getRelationships => none
  | .createRelationship =>
      some (.obj [("sourceId", .str a.sourceId), ("targetId", .str a.targetId),
        ("type", .str a.relationshipType), ("properties", jsOr a.properties (.obj []))])
  | .semanticSearch =>
      some (.obj ([("query", .str a.query)] ++ optField "entityTypes" a.entityTypes
        ++ [("limit", .num a.limit)]))
  | .keywordSearch =>
      some (.obj ([("query", .str a.query)] ++ optField "filters" a.filters
        ++ [("limit", .num a.limit)]))
  | .hybridSearch => some (.obj (spreadMerge [("query", .str a.query)] a.options))
  | .predict => some (.obj [("modelType", .str a.modelType), ("input", a.input)])
  | .chat => some (.obj [("message", .str a.message), ("context", jsOr a.context (.arr []))])
  | .analyzeEntity =>
      some (.obj [("entityId", .str a.entityId), ("analysisType", .str a.analysisType)])
  | .listPipelines => none
  | .getPipeline => none
  | .triggerPipeline => some (jsOr a.parameters (.obj []))
  | .getPipelineRuns => none
  | .listDomains => none
  | .getDomainConfig => none
  | .getOntologySchema => none
  | .validateYaml => some (.obj [("yaml", .str a.yamlContent)])
  | .generateCode =>
      some (.obj [("yaml", .str a.yamlContent), ("language", .str a.targetLanguage)])

/-- Response handling of one operation on one HTTP outcome: every method
shares the uniform `try`/`handleError` body except `getEntity`, which adds
the 404 check on `a.entityId`. -/
def runOperation (op : GatewayOp) (a : OpArgs) (o : HttpOutcome) : Except ClientError Json :=
  match op with
  | .getEntityOp => getEntity a.entityId o
  | _ => runOp o

/-- The spec's failure taxonomy: a failure is one of the three kinds, each
carrying exactly the message `handleError` formats for it (status code and
serialized body for the upstream kind). -/
def wellFormedFailure (e : ClientError) : Prop :=
  (∃ s d, e = .upstream s d
     ∧ e.message = "API Error (" ++ toString s ++ "): " ++ stringify d)
  ∨ (e = .unreachable ∧ e.message = "No response from API Gateway. Is it running?")
  ∨ (∃ m, e = .request m ∧ e.message = "Request failed: " ++ m)

/-! ## Tool adapters

Each `registerXxxTools` function installs a dispatcher that destructures
`\x7b name, arguments \x7d`, switches on `name`, awaits one gateway call, and
wraps the outcome.  The dispatchers are modelled as total functions from the
tool name and the awaited gateway outcome (`Except` over the thrown error's
`.message`) to the returned result object.  The only request argument that
ever reaches the output text is `entityId` in the ontology delete case, so it
is the one argument the ontology dispatcher takes.  Totality of these
functions models the adapter contract that the dispatcher itself never
raises: every failure is materialized as a returned result. -/

/-- One `\x7b type: 'text', text \x7d` content block. -/
structure TextBlock where
  type : String
  text : String
deriving DecidableEq

/-- A tool-call result.  `isError` is an `Option` because the source only
ever sets it on error paths: `none` models the field being absent from the
returned object literal. -/
structure ToolResult where
  content : List TextBlock
  isError : Option Bool
deriving DecidableEq

/-- Successful result: a single text block and no `isError` field. -/
def okText (t : String) : ToolResult :=
  { content := [{ type := "text", text := t }], isError := none }

/-- Caught-failure result built by every group's `catch` clause. -/
def errResult (m : String) : ToolResult :=
  { content := [{ type := "text", text := "Error: " ++ m }], isError := some true }

/-- Defensive result for a tool name the group does not declare. -/
def unknownResult (name : String) : ToolResult :=
  { content := [{ type := "text", text := "Unknown tool: " ++ name }], isError := some true }

/-- A case whose success text is the pretty-printed result. -/
def plainCase (gw : Except String Json) : ToolResult :=
  match gw with
  | .ok r => okText (stringify2 r)
  | .error m => errResult m

/-- A case whose success text prefixes a confirmation line to the
pretty-printed result. -/
def prefixedCase (p : String) (gw : Except String Json) : ToolResult :=
  match gw with
  | .ok r => okText (p ++ stringify2 r)
  | .error m => errResult m

/-- Dispatcher installed by `registerOntologyTools`. -/
def dispatchOntology (name entityId : String) (gw : Except String Json) : ToolResult :=
  if name = "binelek_get_entity" then plainCase gw
  else if name = "binelek_query_entities" then plainCase gw
  else if name = "binelek_create_entity" then
    prefixedCase "Entity created successfully:\n" gw
  else if name = "binelek_update_entity" then
    prefixedCase "Entity updated successfully:\n" gw
  else if name = "binelek_delete_entity" then
    match gw with
    | .ok _ => okText ("Entity " ++ entityId ++ " deleted successfully")
    | .error m => errResult m
  else if name = "binelek_get_relationships" then plainCase gw
  else if name = "binelek_create_relationship" then
    prefixedCase "Relationship created successfully:\n" gw
  else unknownResult name

/-- Dispatcher installed by `registerSearchTools`. -/
def dispatchSearch (name : String) (gw : Except String Json) : ToolResult :=
  if name = "binelek_semantic_search" then plainCase gw
  else if name = "binelek_keyword_search" then plainCase gw
  else if name = "binelek_hybrid_search" then plainCase gw
  else unknownResult name

/-- Dispatcher installed by `registerAITools`.  The chat case passes a
string result through unwrapped and pretty-prints anything else. -/
def dispatchAI (name : String) (gw : Except String Json) : ToolResult :=
  if name = "binelek_ai_chat" then
    match gw with
    | .ok r =>
        okText (match r with
          | .str s => s
          | v => stringify2 v)
    | .error m => errResult m
  else if name = "binelek_ai_predict" then plainCase gw
  else if name = "binelek_ai_analyze_entity" then plainCase gw
  else unknownResult name

/-- Dispatcher installed by `registerPipelineTools`. -/
def dispatchPipeline (name : String) (gw : Except String Json) : ToolResult :=
  if name = "binelek_list_pipelines" then plainCase gw
  else if name = "binelek_get_pipeline" then plainCase gw
  else if name = "binelek_trigger_pipeline" then
    prefixedCase "Pipeline triggered successfully:\n" gw
  else if name = "binelek_get_pipeline_runs" then plainCase gw
  else unknownResult name

/-- Dispatcher installed by `registerAdminTools`.  The YAML-validation case
evaluates `result.valid` — a property access that throws a TypeError when
the response body is `null`, which the surrounding catch turns into an error
result — and branches on its truthiness; on a falsy flag it prints
`result.errors` (a safe access, since reaching it means `result` was not
`null`; `JSON.stringify(undefined, null, 2)` interpolates as `"undefined"`
when the field is absent). -/
def dispatchAdmin (name : String) (gw : Except String Json) : ToolResult :=
  if name = "binelek_list_domains" then plainCase gw
  else if name = "binelek_get_domain" then plainCase gw
  else if name = "binelek_get_ontology_schema" then plainCase gw
  else if name = "binelek_validate_yaml" then
    match gw with
    | .ok result =>
        match jsPropOrThrow result "valid" with
        | .error m => errResult m
        | .ok v =>
            okText (if jsOptTruthy v
              then "✓ YAML is valid\n" ++ stringify2 result
              else "✗ YAML validation failed:\n"
                ++ (match jsProp result "errors" with
                    | some e => stringify2 e
                    | none => "undefined"))
    | .error m => errResult m
  else if name = "binelek_generate_code" then
    prefixedCase "Code generated successfully:\n" gw
  else unknownResult name

/-- The five tool groups. -/
inductive Group where
  | ontology
  | search
  | ai
  | pipeline
  | admin
deriving DecidableEq

/-- The tool names each group declares (its `tools` array). -/
def groupToolNames : Group → List String
  | .ontology =>
      ["binelek_get_entity", "binelek_query_entities", "binelek_create_entity",
       "binelek_update_entity", "binelek_delete_entity", "binelek_get_relationships",
       "binelek_create_relationship"]
  | .search => ["binelek_semantic_search", "binelek_keyword_search", "binelek_hybrid_search"]
  | .ai => ["binelek_ai_chat", "binelek_ai_predict", "binelek_ai_analyze_entity"]
  | .pipeline =>
      ["binelek_list_pipelines", "binelek_get_pipeline", "binelek_trigger_pipeline",
       "binelek_get_pipeline_runs"]
  | .admin =>
      ["binelek_list_domains", "binelek_get_domain", "binelek_get_ontology_schema",
       "binelek_validate_yaml", "binelek_generate_code"]

/-- Uniform view of the five dispatchers (the `entityId` argument is read
only by the ontology group). -/
def dispatch (g : Group) (name entityId : String) (gw : Except String Json) : ToolResult :=
  match g with
  | .ontology => dispatchOntology name entityId gw
  | .search => dispatchSearch name gw
  | .ai => dispatchAI name gw
  | .pipeline => dispatchPipeline name gw
  | .admin => dispatchAdmin name gw

/-! ## Shared dispatcher lemmas -/

lemma ontology_known_error (name eid m : String) (h : name ∈ groupToolNames Group.ontology) :
    dispatchOntology name eid (.error m) = errResult m := by
  simp only [groupToolNames] at h
  fin_cases h <;> rfl

lemma search_known_error (name m : String) (h : name ∈ groupToolNames Group.search) :
    dispatchSearch name (.error m) = errResult m := by
  simp only [groupToolNames] at h
  fin_cases h <;> rfl

lemma ai_known_error (name m : String) (h : name ∈ groupToolNames Group.ai) :
    dispatchAI name (.error m) = errResult m := by
  simp only [groupToolNames] at h
  fin_cases h <;> rfl

lemma pipeline_known_error (name m : String) (h : name ∈ groupToolNames Group.pipeline) :
    dispatchPipeline name (.error m) = errResult m := by
  simp only [groupToolNames] at h
  fin_cases h <;> rfl

lemma admin_known_error (name m : String) (h : name ∈ groupToolNames Group.admin) :
    dispatchAdmin name (.error m) = errResult m := by
  simp only [groupToolNames] at h
  fin_cases h <;> rfl

lemma ontology_known_ok (name eid : String) (b : Json)
    (h : name ∈ groupToolNames Group.ontology) :
    (dispatchOntology name eid (.ok b)).isError = none := by
  simp only [groupToolNames] at h
  fin_cases h <;> rfl

lemma search_known_ok (name : String) (b : Json) (h : name ∈ groupToolNames Group.search) :
    (dispatchSearch name (.ok b)).isError = none := by
  simp only [groupToolNames] at h
  fin_cases h <;> rfl

lemma ai_known_ok (name : String) (b : Json) (h : name ∈ groupToolNames Group.ai) :
    (dispatchAI name (.ok b)).isError = none := by
  simp only [groupToolNames] at h
  fin_cases h <;> rfl

lemma pipeline_known_ok (name : String) (b : Json) (h : name ∈ groupToolNames Group.pipeline) :
    (dispatchPipeline name (.ok b)).isError = none := by
  simp only [groupToolNames] at h
  fin_cases h <;> rfl

lemma admin_known_ok (name : String) (b : Json) (h : name ∈ groupToolNames Group.admin)
    (hb : ¬(name = "binelek_validate_yaml" ∧ b = Json.null)) :
    (dispatchAdmin name (.ok b)).isError = none := by
  simp only [groupToolNames] at h
  fin_cases h
  case _ => rfl
  case _ => rfl
  case _ => rfl
  case _ =>
    have hbn : b ≠ Json.null := fun hh => hb ⟨rfl, hh⟩
    cases b with
    | null => exact absurd rfl hbn
    | bool x => rfl
    | num x => rfl
    | str x => rfl
    | arr x => rfl
    | obj x => rfl
  case _ => rfl

lemma ontology_unknown (name eid : String) (gw : Except String Json)
    (h : name ∉ groupToolNames Group.ontology) :
    dispatchOntology name eid gw = unknownResult name := by
  simp only [groupToolNames, List.mem_cons, List.not_mem_nil, or_false, not_or] at h
  obtain ⟨h1, h2, h3, h4, h5, h6, h7⟩ := h
  unfold dispatchOntology
  rw [if_neg h1, if_neg h2, if_neg h3, if_neg h4, if_neg h5, if_neg h6, if_neg h7]

lemma search_unknown (name : String) (gw : Except String Json)
    (h : name ∉ groupToolNames Group.search) :
    dispatchSearch name gw = unknownResult name := by
  simp only [groupToolNames, List.mem_cons, List.not_mem_nil, or_false, not_or] at h
  obtain ⟨h1, h2, h3⟩ := h
  unfold dispatchSearch
  rw [if_neg h1, if_neg h2, if_neg h3]

lemma ai_unknown (name : String) (gw : Except String Json)
    (h : name ∉ groupToolNames Group.ai) :
    dispatchAI name gw = unknownResult name := by
  simp only [groupToolNames, List.mem_cons, List.not_mem_nil, or_false, not_or] at h
  obtain ⟨h1, h2, h3⟩ := h
  unfold dispatchAI
  rw [if_neg h1, if_neg h2, if_neg h3]

lemma pipeline_unknown (name : String) (gw : Except String Json)
    (h : name ∉ groupToolNames Group.pipeline) :
    dispatchPipeline name gw = unknownResult name := by
  simp only [groupToolNames, List.mem_cons, List.not_mem_nil, or_false, not_or] at h
  obtain ⟨h1, h2, h3, h4⟩ := h
  unfold dispatchPipeline
  rw [if_neg h1, if_neg h2, if_neg h3, if_neg h4]

lemma admin_unknown (name : String) (gw : Except String Json)
    (h : name ∉ groupToolNames Group.admin) :
    dispatchAdmin name gw = unknownResult name := by
  simp only [groupToolNames, List.mem_cons, List.not_mem_nil, or_false, not_or] at h
  obtain ⟨h1, h2, h3, h4, h5⟩ := h
  unfold dispatchAdmin
  rw [if_neg h1, if_neg h2, if_neg h3, if_neg h4, if_neg h5]

/-- On a known tool name, every group's catch clause turns a thrown gateway
failure into the uniform error result. -/
lemma dispatch_known_error (g : Group) (name eid m : String) (h : name ∈ groupToolNames g) :
    dispatch g name eid (.error m) = errResult m := by
  cases g with
  | ontology => exact ontology_known_error name eid m h
  | search => exact search_known_error name m h
  | ai => exact ai_known_error name m h
  | pipeline => exact pipeline_known_error name m h
  | admin => exact admin_known_error name m h

/-- On a known tool name with a successful gateway outcome, no group sets the
`isError` field — except the one success-shaped outcome that still errors:
a `null` body handed to the YAML-validation case, whose `result.valid`
access throws into the catch clause. -/
lemma dispatch_known_ok (g : Group) (name eid : String) (b : Json)
    (h : name ∈ groupToolNames g)
    (hx : ¬(g = Group.admin ∧ name = "binelek_validate_yaml" ∧ b = Json.null)) :
    (dispatch g name eid (.ok b)).isError = none := by
  cases g with
  | ontology => exact ontology_known_ok name eid b h
  | search => exact search_known_ok name b h
  | ai => exact ai_known_ok name b h
  | pipeline => exact pipeline_known_ok name b h
  | admin => exact admin_known_ok name b h (fun hh => hx ⟨rfl, hh.1, hh.2⟩)

/-- On a name outside the group's declared tools, every dispatcher falls to
its defensive default case. -/
lemma dispatch_unknown (g : Group) (name eid : String) (gw : Except String Json)
    (h : name ∉ groupToolNames g) :
    dispatch g name eid gw = unknownResult name := by
  cases g with
  | ontology => exact ontology_unknown name eid gw h
  | search => exact search_unknown name gw h
  | ai => exact ai_unknown name gw h
  | pipeline => exact pipeline_unknown name gw h
  | admin => exact admin_unknown name gw h

/-- Every failing outcome of the uniform operation body yields one of the
three normalized failure kinds with its canonical message. -/
lemma runOp_error_wf (o : HttpOutcome) (e : ClientError) (h : runOp o = .error e) :
    wellFormedFailure e := by
  cases o with
  | response r =>
      by_cases hs : r.status < 500
      · simp [runOp, axiosExchange, validateStatus, hs] at h
      · simp [runOp, axiosExchange, validateStatus, hs, handleError] at h
        subst h
        exact Or.inl ⟨r.status, r.data, rfl, rfl⟩
  | noResponse =>
      simp [runOp, axiosExchange, handleError] at h
      subst h
      exact Or.inr (Or.inl ⟨rfl, rfl⟩)
  | sendFailure m =>
      simp [runOp, axiosExchange, handleError] at h
      subst h
      exact Or.inr (Or.inr ⟨m, rfl, rfl⟩)

/-- The same for `getEntity`, whose extra 404 branch also routes through
`handleError` (producing the request kind). -/
lemma getEntity_error_wf (entityId : String) (o : HttpOutcome) (e : ClientError)
    (h : getEntity entityId o = .error e) : wellFormedFailure e := by
  cases o with
  | response r =>
      by_cases hs : r.status < 500
      · by_cases h4 : r.status = 404
        · simp [getEntity, axiosExchange, validateStatus, hs, h4, handleError] at h
          subst h
          exact Or.inr (Or.inr ⟨"Entity not found: " ++ entityId, rfl, rfl⟩)
        · simp [getEntity, axiosExchange, validateStatus, hs, h4] at h
      · simp [getEntity, axiosExchange, validateStatus, hs, handleError] at h
        subst h
        exact Or.inl ⟨r.status, r.data, rfl, rfl⟩
  | noResponse =>
      simp [getEntity, axiosExchange, handleError] at h
      subst h
      exact Or.inr (Or.inl ⟨rfl, rfl⟩)
  | sendFailure m =>
      simp [getEntity, axiosExchange, handleError] at h
      subst h
      exact Or.inr (Or.inr ⟨m, rfl, rfl⟩)

/-! ## The claims -/

/-- C1, counterexample: the claim says every dispatcher result carries an
explicit `isError`, with `isError=false` on success.  On the code, a
successful chat call returns a result object with no `isError` field at all
(modelled as `none`, which is neither `some false` nor `some true`). -/
theorem c1_success_isError_absent :
    (dispatch Group.ai "binelek_ai_chat" "" (Except.ok (Json.str "hi"))).isError = none
      ∧ (none : Option Bool) ≠ some false ∧ (none : Option Bool) ≠ some true :=
  ⟨rfl, fun h => Option.noConfusion h, fun h => Option.noConfusion h⟩

/-- C1, amended: every dispatch is total (no failure escapes) and returns a
result whose `isError` is either explicitly `true` or entirely absent;
success never sets `isError=false` explicitly.  `isError=true` appears on the
caught-failure and unknown-tool paths, and on the one success-shaped outcome
that still throws inside the `try`: a `null` body handed to the
YAML-validation case, whose `result.valid` access raises a TypeError that the
catch converts to an error result.  Every other successful call on a known
name omits the `isError` field. -/
theorem c1_isError_policy (g : Group) (name eid : String) (gw : Except String Json) :
    ((dispatch g name eid gw).isError = some true ∨ (dispatch g name eid gw).isError = none)
    ∧ (∀ b, gw = Except.ok b → name ∈ groupToolNames g →
        ¬(g = Group.admin ∧ name = "binelek_validate_yaml" ∧ b = Json.null) →
        (dispatch g name eid gw).isError = none)
    ∧ (∀ m, gw = Except.error m → name ∈ groupToolNames g →
        (dispatch g name eid gw).isError = some true)
    ∧ (name ∉ groupToolNames g → (dispatch g name eid gw).isError = some true)
    ∧ (dispatch Group.admin "binelek_validate_yaml" eid (Except.ok Json.null)).isError
        = some true := by
  refine ⟨?_, ?_, ?_, ?_, rfl⟩
  · by_cases h : name ∈ groupToolNames g
    · cases gw with
      | ok b =>
          by_cases hx : g = Group.admin ∧ name = "binelek_validate_yaml" ∧ b = Json.null
          · obtain ⟨hg, hn, hb⟩ := hx
            subst hg
            subst hn
            subst hb
            exact Or.inl rfl
          · exact Or.inr (dispatch_known_ok g name eid b h hx)
      | error m => exact Or.inl (by rw [dispatch_known_error g name eid m h]; rfl)
    · exact Or.inl (by rw [dispatch_unknown g name eid gw h]; rfl)
  · intro b hb hmem hx
    subst hb
    exact dispatch_known_ok g name eid b hmem hx
  · intro m hm hmem
    subst hm
    rw [dispatch_known_error g name eid m hmem]
    rfl
  · intro h
    rw [dispatch_unknown g name eid gw h]
    rfl

/-- Witness for the TypeError carve-out of C1's amended theorem: a `null`
body to the YAML validator yields a caught error result, not a success. -/
theorem c1_null_body_validate_yaml :
    dispatchAdmin "binelek_validate_yaml" (Except.ok Json.null)
      = errResult (typeErrorMsg "valid") := rfl

/-- Witness for C1's amended theorem at concrete calls. -/
theorem c1_isError_policy_witness :
    (dispatch Group.search "binelek_semantic_search" "" (Except.ok Json.null)).isError = none
    ∧ (dispatch Group.search "binelek_semantic_search" "" (Except.error "x")).isError = some true
    ∧ (dispatch Group.search "nope" "" (Except.ok Json.null)).isError = some true
    ∧ (dispatch Group.admin "binelek_validate_yaml" "" (Except.ok Json.null)).isError
        = some true :=
  ⟨(c1_isError_policy Group.search "binelek_semantic_search" "" (.ok .null)).2.1
      Json.null rfl (by decide) (fun hh => Group.noConfusion hh.1),
   (c1_isError_policy Group.search "binelek_semantic_search" "" (.error "x")).2.2.1
      "x" rfl (by decide),
   (c1_isError_policy Group.search "nope" "" (.ok .null)).2.2.2.1 (by decide),
   (c1_isError_policy Group.admin "binelek_validate_yaml" "" (.ok .null)).2.2.2.2⟩

/-- C2, counterexample: the claim says constructing a client from a config
missing `baseUrl` or `tenantId` fails at construction time.  On the code the
constructor has no validation: with both fields missing it still succeeds and
produces this client value. -/
theorem c2_construction_never_rejects :
    mkClient { baseUrl := none, token := none, tenantId := none, timeout := none }
      = { tenantId := none, baseURL := none
          headers := [("X-Tenant-Id", none), ("Content-Type", some "application/json")]
          timeout := 30000 } := rfl

/-- C2, amended: construction never fails at runtime — the requiredness of
`baseUrl` and `tenantId` lives only in the static interface type.  For every
config (fields present or not) the constructor succeeds, storing the fields
as given; when the tenant id is present, it is fixed in the default tenant
header. -/
theorem c2_construction_total (c : GatewayConfig) :
    (mkClient c).tenantId = c.tenantId ∧ (mkClient c).baseURL = c.baseUrl
    ∧ (∀ tid, c.tenantId = some tid →
        hdr (mkClient c) "X-Tenant-Id" = some (some tid)) := by
  refine ⟨rfl, rfl, ?_⟩
  intro tid h
  unfold hdr mkClient defaultHeaders
  rw [h]
  rfl

/-- Witness for C2's amended theorem at a fully-specified config. -/
theorem c2_construction_total_witness :
    hdr (mkClient { baseUrl := some "http://localhost:8092", token := none,
                    tenantId := some "core", timeout := none }) "X-Tenant-Id"
        = some (some "core")
    ∧ (mkClient { baseUrl := some "http://localhost:8092", token := none,
                  tenantId := some "core", timeout := none }).baseURL
        = some "http://localhost:8092" :=
  ⟨(c2_construction_total _).2.2 "core" rfl, (c2_construction_total _).2.1⟩

/-- C3: a 404 on entity fetch surfaces as a thrown failure whose message
contains the entity id, and the failure is not of the upstream
`API Error (status): body` kind.  (The internal `throw` is re-wrapped by the
method's own catch, so the failure leaves as the request kind with message
`Request failed: Entity not found: <id>` — still naming the id and still
distinct from any upstream failure.) -/
theorem c3_getEntity_404 (entityId : String) (body : Json) :
    getEntity entityId (.response ⟨404, body⟩)
        = .error (.request ("Entity not found: " ++ entityId))
    ∧ (ClientError.request ("Entity not found: " ++ entityId)).message
        = "Request failed: Entity not found: " ++ entityId
    ∧ (∃ pre, "Request failed: Entity not found: " ++ entityId = pre ++ entityId)
    ∧ (∀ s d, ClientError.request ("Entity not found: " ++ entityId)
        ≠ ClientError.upstream s d) :=
  ⟨rfl, rfl, ⟨"Request failed: Entity not found: ", rfl⟩,
   fun _ _ h => ClientError.noConfusion h⟩

/-- Witness for C3 at a concrete entity id. -/
theorem c3_getEntity_404_witness :
    getEntity "e1" (.response ⟨404, .null⟩)
        = .error (.request ("Entity not found: " ++ "e1"))
    ∧ ClientError.request ("Entity not found: " ++ "e1") ≠ ClientError.upstream 404 .null :=
  ⟨(c3_getEntity_404 "e1" .null).1, (c3_getEntity_404 "e1" .null).2.2.2 404 .null⟩

/-- C4: on any known tool of any group, a thrown gateway failure is caught
and returned as a single text block `Error: <message>` with `isError=true`;
the dispatcher itself is a total function, so no failure propagates. -/
theorem c4_error_result (g : Group) (name eid m : String) (h : name ∈ groupToolNames g) :
    dispatch g name eid (Except.error m)
      = { content := [{ type := "text", text := "Error: " ++ m }], isError := some true } := by
  rw [dispatch_known_error g name eid m h]
  rfl

/-- Witness for C4 at a concrete admin tool call. -/
theorem c4_error_result_witness :
    dispatch Group.admin "binelek_generate_code" "" (Except.error "boom")
      = { content := [{ type := "text", text := "Error: " ++ "boom" }]
          isError := some true } :=
  c4_error_result Group.admin "binelek_generate_code" "" "boom" (by decide)

/-- C5: every failure leaving any gateway operation is one of exactly three
kinds — upstream (message carrying the status code and serialized body),
unreachable, or request — each with its canonical human-readable message;
the axios-level error shape (`JsError`) never reaches the caller. -/
theorem c5_failure_taxonomy (op : GatewayOp) (a : OpArgs) (o : HttpOutcome)
    (e : ClientError) (h : runOperation op a o = .error e) : wellFormedFailure e := by
  cases op <;>
    first
      | exact getEntity_error_wf a.entityId o e h
      | exact runOp_error_wf o e h

/-- Witness for C5 on an unanswered request. -/
theorem c5_failure_taxonomy_witness : wellFormedFailure ClientError.unreachable :=
  c5_failure_taxonomy .predict {} .noResponse .unreachable rfl

/-- C6: for every operation, a response with status at least 500 makes the
call throw the upstream failure (status and body in the message), while a
response with status in [200,500) is returned to the caller with its parsed
body passed through — except the one domain rule: `getEntity` turns a 404
into a thrown not-found failure. -/
theorem c6_status_policy (op : GatewayOp) (a : OpArgs) (r : HttpResponse) :
    (500 ≤ r.status → runOperation op a (.response r) = .error (.upstream r.status r.data))
    ∧ (200 ≤ r.status → r.status < 500 → ¬(op = .getEntityOp ∧ r.status = 404) →
        runOperation op a (.response r) = .ok r.data)
    ∧ (r.status = 404 →
        runOperation .getEntityOp a (.response r)
          = .error (.request ("Entity not found: " ++ a.entityId))) := by
  refine ⟨?_, ?_, ?_⟩
  · intro h5
    have hs : ¬ (r.status < 500) := by omega
    cases op <;>
      simp [runOperation, runOp, getEntity, axiosExchange, validateStatus, hs, handleError]
  · intro _ h5 hne
    cases op
    case getEntityOp =>
      have h404 : r.status ≠ 404 := fun hh => hne ⟨rfl, hh⟩
      simp [runOperation, getEntity, axiosExchange, validateStatus, h5, h404]
    all_goals simp [runOperation, runOp, axiosExchange, validateStatus, h5]
  · intro h4
    simp [runOperation, getEntity, axiosExchange, validateStatus, h4, handleError]

/-- Witness for C6 at concrete statuses 503, 204 and 404. -/
theorem c6_status_policy_witness :
    runOperation .predict {} (.response ⟨503, .null⟩) = .error (.upstream 503 .null)
    ∧ runOperation .chat {} (.response ⟨204, .str "ok"⟩) = .ok (.str "ok")
    ∧ runOperation .getEntityOp { entityId := "e7" } (.response ⟨404, .null⟩)
        = .error (.request ("Entity not found: " ++ "e7")) :=
  ⟨(c6_status_policy .predict {} ⟨503, .null⟩).1 (by decide),
   (c6_status_policy .chat {} ⟨204, .str "ok"⟩).2.1 (by decide) (by decide) (by decide),
   (c6_status_policy .getEntityOp { entityId := "e7" } ⟨404, .null⟩).2.2 rfl⟩

/-- C7, counterexample: the claim says the authorization header is present
exactly when a token is configured.  A config whose token is the empty
string has a token configured (`some ""`, not `none`), yet — because the
constructor tests JavaScript truthiness — the constructed client carries no
authorization header at all. -/
theorem c7_empty_token_no_auth_header :
    hdr (mkClient { baseUrl := some "http://localhost:8092", token := some "",
                    tenantId := some "core", timeout := none }) "Authorization" = none
    ∧ ({ baseUrl := some "http://localhost:8092", token := some "",
         tenantId := some "core", timeout := none } : GatewayConfig).token ≠ none :=
  ⟨rfl, fun h => Option.noConfusion h⟩

/-- C7, amended: every constructed client carries `X-Tenant-Id` equal to the
configured tenant id and `Content-Type: application/json`; the authorization
header equals `Bearer <token>` exactly when a nonempty token is configured,
and is entirely absent both when no token is configured and when the
configured token is the empty string (JavaScript truthiness). -/
theorem c7_default_headers (c : GatewayConfig) (tid : String) (h : c.tenantId = some tid) :
    hdr (mkClient c) "X-Tenant-Id" = some (some tid)
    ∧ hdr (mkClient c) "Content-Type" = some (some "application/json")
    ∧ (∀ t, c.token = some t → t ≠ "" →
        hdr (mkClient c) "Authorization" = some (some ("Bearer " ++ t)))
    ∧ (c.token = none → hdr (mkClient c) "Authorization" = none)
    ∧ (c.token = some "" → hdr (mkClient c) "Authorization" = none) := by
  refine ⟨?_, ?_, ?_, ?_, ?_⟩
  · unfold hdr mkClient defaultHeaders
    rw [h]
    rfl
  · unfold hdr mkClient defaultHeaders
    rfl
  · intro t ht hne
    simp only [hdr, mkClient, defaultHeaders, ht]
    rw [if_neg hne]
    rfl
  · intro ht
    simp only [hdr, mkClient, defaultHeaders, ht]
    rfl
  · intro ht
    simp only [hdr, mkClient, defaultHeaders, ht]
    rfl

/-- Witness for C7's amended theorem on configs with a real token and with
no token. -/
theorem c7_default_headers_witness :
    hdr (mkClient { baseUrl := some "u", token := some "tok",
                    tenantId := some "core", timeout := none }) "X-Tenant-Id"
        = some (some "core")
    ∧ hdr (mkClient { baseUrl := some "u", token := some "tok",
                      tenantId := some "core", timeout := none }) "Authorization"
        = some (some ("Bearer " ++ "tok"))
    ∧ hdr (mkClient { baseUrl := some "u", token := none,
                      tenantId := some "core", timeout := none }) "Authorization"
        = none :=
  ⟨(c7_default_headers _ "core" rfl).1,
   (c7_default_headers ⟨some "u", some "tok", some "core", none⟩ "core" rfl).2.2.1
      "tok" rfl (by decide),
   (c7_default_headers ⟨some "u", none, some "core", none⟩ "core" rfl).2.2.2.1 rfl⟩

/-- C8: a tool name outside the receiving group's declared names yields the
defensive result: a single text block containing the literal unknown name
(as `Unknown tool: <name>`) with `isError=true`. -/
theorem c8_unknown_tool (g : Group) (name eid : String) (gw : Except String Json)
    (h : name ∉ groupToolNames g) :
    dispatch g name eid gw
      = { content := [{ type := "text", text := "Unknown tool: " ++ name }]
          isError := some true } := by
  rw [dispatch_unknown g name eid gw h]
  rfl

/-- Witness for C8 at a concrete unknown name. -/
theorem c8_unknown_tool_witness :
    dispatch Group.pipeline "binelek_no_such_tool" "" (Except.ok Json.null)
      = { content := [{ type := "text", text := "Unknown tool: " ++ "binelek_no_such_tool" }]
          isError := some true } :=
  c8_unknown_tool Group.pipeline "binelek_no_such_tool" "" (.ok .null) (by decide)

/-- C9: the YAML-validation tool formats by the `valid` flag of the response
body: on `valid=true` the text is the check-mark marker followed by the whole
pretty-serialized body; on `valid=false` it is the cross-mark marker followed
by the pretty-serialized `errors` value instead of the body. -/
theorem c9_validate_yaml_format (body errs : Json) :
    (jsProp body "valid" = some (.bool true) →
      dispatchAdmin "binelek_validate_yaml" (.ok body)
        = { content := [{ type := "text", text := "✓ YAML is valid\n" ++ stringify2 body }],
            isError := none })
    ∧ (jsProp body "valid" = some (.bool false) → jsProp body "errors" = some errs →
      dispatchAdmin "binelek_validate_yaml" (.ok body)
        = { content := [{ type := "text",
                          text := "✗ YAML validation failed:\n" ++ stringify2 errs }],
            isError := none }) := by
  have spine : dispatchAdmin "binelek_validate_yaml" (.ok body)
      = match jsPropOrThrow body "valid" with
        | .error m => errResult m
        | .ok v =>
            okText (if jsOptTruthy v
              then "✓ YAML is valid\n" ++ stringify2 body
              else "✗ YAML validation failed:\n"
                ++ (match jsProp body "errors" with
                    | some e => stringify2 e
                    | none => "undefined")) := rfl
  constructor
  · intro h
    have hnn : jsPropOrThrow body "valid" = .ok (some (Json.bool true)) := by
      cases body <;> simp_all [jsPropOrThrow, jsProp]
    rw [spine, hnn]
    rfl
  · intro h h2
    have hnn : jsPropOrThrow body "valid" = .ok (some (Json.bool false)) := by
      cases body <;> simp_all [jsPropOrThrow, jsProp]
    rw [spine, hnn, h2]
    rfl

/-- Witness for C9 at concrete valid and invalid response bodies. -/
theorem c9_validate_yaml_format_witness :
    dispatchAdmin "binelek_validate_yaml" (.ok (.obj [("valid", .bool true)]))
      = { content := [{ type := "text",
                        text := "✓ YAML is valid\n" ++ stringify2 (.obj [("valid", .bool true)]) }],
          isError := none }
    ∧ dispatchAdmin "binelek_validate_yaml"
        (.ok (.obj [("valid", .bool false), ("errors", .arr [.str "bad"])]))
      = { content := [{ type := "text",
                        text := "✗ YAML validation failed:\n" ++ stringify2 (.arr [.str "bad"]) }],
          isError := none } :=
  ⟨(c9_validate_yaml_format (.obj [("valid", .bool true)]) .null).1 rfl,
   (c9_validate_yaml_format (.obj [("valid", .bool false), ("errors", .arr [.str "bad"])])
      (.arr [.str "bad"])).2 rfl rfl⟩

/-- C10: `createEntity` sends a body whose `tenantId` field equals the
client's stored tenant id (alongside the `X-Tenant-Id` default header), and
it is the only operation whose request body depends on the tenant id at
all — every other operation builds an identical body under any tenant. -/
theorem c10_tenant_only_in_createEntity (tid : String) (a : OpArgs) :
    requestBody .createEntity (some tid) a
      = some (.obj [("type", .str a.entityType), ("attributes", a.attributes),
          ("tenantId", .str tid)])
    ∧ (∀ op, op ≠ GatewayOp.createEntity →
        ∀ t₁ t₂ : Option String, requestBody op t₁ a = requestBody op t₂ a)
    ∧ (∀ c : GatewayConfig, c.tenantId = some tid →
        hdr (mkClient c) "X-Tenant-Id" = some (some tid)) := by
  refine ⟨rfl, ?_, ?_⟩
  · intro op hop t₁ t₂
    cases op <;> first | exact absurd rfl hop | rfl
  · intro c h
    unfold hdr mkClient defaultHeaders
    rw [h]
    rfl

/-- Witness for C10 at a concrete tenant and arguments. -/
theorem c10_tenant_only_in_createEntity_witness :
    requestBody .createEntity (some "core") { entityType := "Property" }
      = some (.obj [("type", .str "Property"), ("attributes", .obj []),
          ("tenantId", .str "core")])
    ∧ requestBody .predict (some "a") { } = requestBody .predict (some "b") { }
    ∧ hdr (mkClient ⟨some "u", none, some "core", none⟩) "X-Tenant-Id"
        = some (some "core") :=
  ⟨(c10_tenant_only_in_createEntity "core" { entityType := "Property" }).1,
   (c10_tenant_only_in_createEntity "core" { }).2.1 .predict (by decide) (some "a") (some "b"),
   (c10_tenant_only_in_createEntity "core" { }).2.2
      ⟨some "u", none, some "core", none⟩ rfl⟩

end BinelekMCP
